import Mathlib

/-!
Shallow embedding of the workbook-runtime supervisor of the `hands` desktop
application (Rust sources under `packages/desktop/src-tauri/src`): the port
allocator and runtime registry (`runtime_manager.rs`), the job registry and
session-event classification (`jobs.rs`), and the spawn/handshake, restart
monitor, start command, window-close teardown and session-event handler of
`lib.rs`.  Machine integers are modelled as `Nat` (with an explicit `% 2^64`
where the source uses wrapping `u64` atomics); `HashMap`s are association
lists whose `insert` replaces the key; `HashSet`s are duplicate-free lists.
Blocking I/O (child processes, HTTP, timers) is modelled by explicit inputs:
a child's liveness is a `Bool`, a spawn handshake's outcome is a function
argument, elapsed wall-clock time is a `Nat` argument.
-/

namespace Hands

/-! ### Association-list operations (model of `HashMap`) -/

/-- Model of `HashMap::get`: first value stored at the key. -/
def lookupKey {α : Type} (k : String) : List (String × α) → Option α
  | [] => none
  | (k', v) :: rest => if k' = k then some v else lookupKey k rest

/-- Model of `HashMap::insert`: the new pair replaces any pair at the key. -/
def insertKey {α : Type} (k : String) (v : α) (l : List (String × α)) : List (String × α) :=
  (k, v) :: l.filter (fun e => e.1 ≠ k)

/-- Model of `HashMap::remove` (dropping the returned value). -/
def removeKey {α : Type} (k : String) (l : List (String × α)) : List (String × α) :=
  l.filter (fun e => e.1 ≠ k)

/-- The keys of the association list are pairwise distinct (true of a `HashMap`). -/
def keysNodup {α : Type} (l : List (String × α)) : Prop :=
  (l.map Prod.fst).Nodup

instance {α : Type} (l : List (String × α)) : Decidable (keysNodup l) := by
  unfold keysNodup; infer_instance

/-! ### Port allocation (`runtime_manager.rs`) -/

/-- `const RUNTIME_PORT_START: u16 = 55001`. -/
def RUNTIME_PORT_START : Nat := 55001

/-- `const RUNTIME_PORT_END: u16 = 55049`. -/
def RUNTIME_PORT_END : Nat := 55049

/-- Number of ports in the dynamic runtime range (49). -/
def RUNTIME_RANGE_SIZE : Nat := RUNTIME_PORT_END - RUNTIME_PORT_START + 1

/-- A port lies in the dynamic runtime range `[55001, 55049]`. -/
def inRuntimeRange (p : Nat) : Prop :=
  RUNTIME_PORT_START ≤ p ∧ p ≤ RUNTIME_PORT_END

instance (p : Nat) : Decidable (inRuntimeRange p) := by
  unfold inRuntimeRange; infer_instance

/-- The ports of the dynamic runtime range, as a list. -/
def runtimeRangeList : List Nat :=
  (List.range RUNTIME_RANGE_SIZE).map (fun i => RUNTIME_PORT_START + i)

/-- The cursor advance of `allocate_port`:
`if port >= RUNTIME_PORT_END { RUNTIME_PORT_START } else { port + 1 }`. -/
def wrapNext (p : Nat) : Nat :=
  if RUNTIME_PORT_END ≤ p then RUNTIME_PORT_START else p + 1

/-- The scan loop of `allocate_port`: starting at `port`, return the first port
not in `allocated`; stop with `none` when the advanced cursor returns to
`start`.  The fuel argument bounds the loop; `RUNTIME_RANGE_SIZE` steps reach
every port of the cycle when the scan starts inside the range (which the
manager's cursor always does), so the fuel never cuts the loop short. -/
def allocLoop (allocated : List Nat) (start : Nat) : Nat → Nat → Option Nat
  | 0, _ => none
  | fuel + 1, port =>
    if port ∈ allocated then
      let next := wrapNext port
      if next = start then none
      else allocLoop allocated start fuel next
    else some port

/-- `RuntimeInfo` of `runtime_manager.rs`.  The `process: Child` handle is
abstracted to the one observable the supervisor reads from it, liveness
(`processAlive`); `active_jobs: AtomicUsize` is a `Nat`; the window
`HashSet<String>` is a duplicate-free list. -/
structure RuntimeInfo where
  workbook_id : String
  runtime_port : Nat
  postgres_port : Nat
  worker_port : Nat
  processAlive : Bool
  directory : String
  restart_count : Nat
  active_jobs : Nat
  windows : List String
deriving DecidableEq

/-- `RuntimeInfo::has_active_jobs`: `self.active_jobs.load(..) > 0`. -/
def RuntimeInfo.has_active_jobs (r : RuntimeInfo) : Bool :=
  decide (0 < r.active_jobs)

/-- `RuntimeManager` of `runtime_manager.rs`. -/
structure RuntimeManager where
  runtimes : List (String × RuntimeInfo)
  allocated_ports : List Nat
  next_port : Nat
deriving DecidableEq

/-- `RuntimeManager::new`. -/
def RuntimeManager.new : RuntimeManager :=
  { runtimes := [], allocated_ports := [], next_port := RUNTIME_PORT_START }

/-- `RuntimeManager::allocate_port`: scan forward from the cursor, insert the
first free port into the allocated set, advance the cursor past it; `none`
once the scan has wrapped around to its starting point. -/
def RuntimeManager.allocate_port (m : RuntimeManager) : Option Nat × RuntimeManager :=
  let start := m.next_port
  match allocLoop m.allocated_ports start RUNTIME_RANGE_SIZE start with
  | some port =>
    (some port,
      { m with
        allocated_ports := port :: m.allocated_ports,
        next_port := wrapNext port })
  | none => (none, m)

/-- `RuntimeManager::release_port`: remove the port from the allocated set. -/
def RuntimeManager.release_port (m : RuntimeManager) (port : Nat) : RuntimeManager :=
  { m with allocated_ports := m.allocated_ports.filter (fun q => q ≠ port) }

/-- `RuntimeManager::get`. -/
def RuntimeManager.get (m : RuntimeManager) (workbook_id : String) : Option RuntimeInfo :=
  lookupKey workbook_id m.runtimes

/-- `RuntimeManager::remove`: drop the entry and release its runtime port. -/
def RuntimeManager.remove (m : RuntimeManager) (workbook_id : String) :
    Option RuntimeInfo × RuntimeManager :=
  match lookupKey workbook_id m.runtimes with
  | some info =>
    (some info,
      { (RuntimeManager.release_port { m with runtimes := removeKey workbook_id m.runtimes }
          info.runtime_port) with runtimes := removeKey workbook_id m.runtimes })
  | none => (none, m)

/-- `RuntimeManager::register_window`: insert the label into the entry's
window set (no-op when the workbook has no runtime). -/
def RuntimeManager.register_window (m : RuntimeManager) (workbook_id window_label : String) :
    RuntimeManager :=
  match lookupKey workbook_id m.runtimes with
  | some r =>
    let r' := { r with windows := if window_label ∈ r.windows then r.windows
                                  else window_label :: r.windows }
    { m with runtimes := insertKey workbook_id r' m.runtimes }
  | none => m

/-- `RuntimeManager::unregister_window`: remove the label from the entry's
window set and report whether the set became empty (`false` when the workbook
has no runtime). -/
def RuntimeManager.unregister_window (m : RuntimeManager) (workbook_id window_label : String) :
    Bool × RuntimeManager :=
  match lookupKey workbook_id m.runtimes with
  | some r =>
    let r' := { r with windows := r.windows.erase window_label }
    (r'.windows.isEmpty, { m with runtimes := insertKey workbook_id r' m.runtimes })
  | none => (false, m)

/-! ### Window-close teardown (`close_workbook_window` in `lib.rs`) -/

/-- The teardown gate of `close_workbook_window`: unregister the window, then
test `no_windows_left && !get(wb).map(has_active_jobs).unwrap_or(false)`.
Returns the gate's verdict together with the manager after unregistration. -/
def teardown_eligible (m : RuntimeManager) (workbook_id window_label : String) :
    Bool × RuntimeManager :=
  let r := m.unregister_window workbook_id window_label
  (r.1 && !(((r.2.get workbook_id).map RuntimeInfo.has_active_jobs).getD false), r.2)

/-- The registry effect of `close_workbook_window` (lib.rs:1669-1680): derive
the label `workbook_{id}`, unregister it, and if the gate passes remove the
entry (releasing its port) and kill its process.  Returns the gate verdict,
the ids whose process `kill()` was invoked on, and the final manager. -/
def close_workbook_window_step (m : RuntimeManager) (workbook_id : String) :
    Bool × List String × RuntimeManager :=
  let window_label := "workbook_" ++ workbook_id
  let g := teardown_eligible m workbook_id window_label
  if g.1 then
    match g.2.remove workbook_id with
    | (some _info, m') => (true, [workbook_id], m')
    | (none, m') => (true, [], m')
  else (false, [], g.2)

/-! ### Port-operation traces (for the allocator claims) -/

/-- One allocator call: `allocate_port()` or `release_port(p)`. -/
inductive PortOp where
  | alloc : PortOp
  | release (p : Nat) : PortOp
deriving DecidableEq

/-- Run a sequence of allocator calls, keeping only the final manager. -/
def runPortOps : RuntimeManager → List PortOp → RuntimeManager
  | m, [] => m
  | m, PortOp.alloc :: rest => runPortOps (m.allocate_port).2 rest
  | m, PortOp.release p :: rest => runPortOps (m.release_port p) rest

/-- Perform `n` successive `allocate_port` calls, collecting the granted
ports in order. -/
def allocMany (m : RuntimeManager) : Nat → List Nat × RuntimeManager
  | 0 => ([], m)
  | n + 1 =>
    let r := m.allocate_port
    let rest := allocMany r.2 n
    match r.1 with
    | some p => (p :: rest.1, rest.2)
    | none => (rest.1, rest.2)

/-- The round-robin scenario of the spec: allocate `N` ports from a fresh
manager, release all of them, then allocate a full range worth again.
Returns the first and the second batch of granted ports. -/
def roundRobinPorts (N : Nat) : List Nat × List Nat :=
  let a := allocMany RuntimeManager.new N
  let m2 := a.1.foldl (fun m p => m.release_port p) a.2
  let b := allocMany m2 RUNTIME_RANGE_SIZE
  (a.1, b.1)

/-! ### Workbook-server registry and restart monitor (`lib.rs`) -/

/-- `WorkbookServerProcess` of `lib.rs`.  The `child: Child` handle is
abstracted to the observable the monitor reads via `try_wait()`: whether the
process has exited. -/
structure WorkbookServerProcess where
  childExited : Bool
  runtime_port : Nat
  directory : String
  restart_count : Nat
deriving DecidableEq

/-- The `workbook_servers` map of `AppState`. -/
abbrev Servers := List (String × WorkbookServerProcess)

/-- `const MAX_RESTARTS: u32 = 5` in `start_workbook_server_monitor`. -/
def MAX_RESTARTS : Nat := 5

/-- The `to_restart` list one monitor tick collects: for every entry whose
process has exited and whose `restart_count < MAX_RESTARTS`, the tuple
`(workbook_id, directory, restart_count + 1)`. -/
def monitorToRestart (servers : Servers) : List (String × String × Nat) :=
  (servers.filter (fun e => e.2.childExited && decide (e.2.restart_count < MAX_RESTARTS))).map
    (fun e => (e.1, e.2.directory, e.2.restart_count + 1))

/-- The registry after the monitor's removal phase: every `to_restart` id is
removed (`state_guard.workbook_servers.remove(workbook_id)`). -/
def monitorAfterRemove (servers : Servers) : Servers :=
  (monitorToRestart servers).foldl (fun s t => removeKey t.1 s) servers

/-- The ids the monitor tick attempts to respawn (exactly the `to_restart`
ids; entries at or beyond `MAX_RESTARTS` are only logged, never respawned). -/
def monitorSpawnAttempts (servers : Servers) : List String :=
  (monitorToRestart servers).map (fun t => t.1)

/-- The respawn of one `to_restart` tuple `(id, directory, restart_count+1)`:
re-run the handshake (outcome given by the `spawn` oracle, `some port` on
success) and re-insert the entry with the incremented restart count; a failed
respawn inserts nothing. -/
def respawnStep (spawn : String → String → Option Nat) (s : Servers)
    (t : String × String × Nat) : Servers :=
  match spawn t.1 t.2.1 with
  | some port =>
    insertKey t.1
      { childExited := false, runtime_port := port,
        directory := t.2.1, restart_count := t.2.2 } s
  | none => s

/-- One tick of `start_workbook_server_monitor`: collect `to_restart`, remove
those entries, then respawn each in turn. -/
def monitorStep (spawn : String → String → Option Nat) (servers : Servers) : Servers :=
  (monitorToRestart servers).foldl (respawnStep spawn) (monitorAfterRemove servers)

/-- `n` successive monitor ticks. -/
def monitorIter (spawn : String → String → Option Nat) : Nat → Servers → Servers
  | 0, s => s
  | n + 1, s => monitorIter spawn n (monitorStep spawn s)

/-! ### Spawn / handshake (`spawn_workbook_server` in `lib.rs`) -/

/-- The parsed form of the worker's ready line
(`WorkbookServerReady` with `type` and `runtimePort`). -/
structure WorkbookServerReady where
  msg_type : String
  runtime_port : Nat
deriving DecidableEq

/-- The handshake read loop: scan stdout lines in order; a line is considered
only if it starts with a brace (`line.starts_with('\x7b')` in the source), is
then JSON-parsed (the `parse` oracle models `serde_json::from_str`), and
yields the advertised port when its `type` field is `"ready"`.  `none` when
the stream ends (the process exited) without such a line. -/
def readyScan (parse : String → Option WorkbookServerReady) : List String → Option Nat
  | [] => none
  | line :: rest =>
    if line.startsWith "\x7b" then
      match parse line with
      | some ready =>
        if ready.msg_type = "ready" then some ready.runtime_port
        else readyScan parse rest
      | none => readyScan parse rest
    else readyScan parse rest

/-- Outcome of `spawn_workbook_server`: the negotiated port on success
(`none` models the `Err` return), plus whether `child.kill()` was invoked. -/
structure SpawnResult where
  port : Option Nat
  childKilled : Bool
deriving DecidableEq

/-- `spawn_workbook_server`, over the observable inputs: whether the 60s
timeout elapsed before a ready line was read, and the stdout lines available
before the stream ended.  On timeout, or when the stream ends without a ready
line, the child is killed and an error is returned. -/
def spawn_workbook_server (parse : String → Option WorkbookServerReady)
    (timedOut : Bool) (stdoutLines : List String) : SpawnResult :=
  if timedOut then { port := none, childKilled := true }
  else
    match readyScan parse stdoutLines with
    | some p => { port := some p, childKilled := false }
    | none => { port := none, childKilled := true }

/-- Outcome of the `start_workbook_server` command: the returned port on
success (`none` models the propagated spawn error), the ids of pre-existing
workers that were stopped (graceful `/stop` then `kill()`), and the registry
after the command. -/
structure StartOutcome where
  status : Option Nat
  stopped : List String
  servers : Servers
deriving DecidableEq

/-- The registry effect of `start_workbook_server` (lib.rs:798-860): stop and
remove every existing runtime (they share the legacy port), then spawn; on
handshake success insert a fresh entry with `restart_count 0`, on failure
propagate the error with nothing inserted. -/
def start_workbook_server_step (servers : Servers) (workbook_id directory : String)
    (sr : SpawnResult) : StartOutcome :=
  let stopped := servers.map Prod.fst
  let cleared : Servers := []
  match sr.port with
  | some p =>
    { status := some p, stopped := stopped,
      servers := insertKey workbook_id
        { childExited := false, runtime_port := p,
          directory := directory, restart_count := 0 } cleared }
  | none => { status := none, stopped := stopped, servers := cleared }

/-! ### Jobs (`jobs.rs`) -/

/-- `2^64`, the modulus of the registry's `AtomicU64` counter. -/
def U64 : Nat := 2 ^ 64

/-- `JobStatus` of `jobs.rs`. -/
inductive JobStatus where
  | Running : JobStatus
  | Completed : JobStatus
  | Failed : JobStatus
  | Cancelled : JobStatus
deriving DecidableEq

/-- `JobInfo` of `jobs.rs`; timestamps are `u64` milliseconds. -/
structure JobInfo where
  id : String
  workbook_id : String
  session_id : String
  status : JobStatus
  description : String
  started_at : Nat
  updated_at : Nat
deriving DecidableEq

/-- `JobInfo::new`: the id is `format!("job_{}_{}", session_id, now)` where
`now` is the current wall-clock milliseconds (an explicit argument here);
the job starts `Running`. -/
def JobInfo.new (workbook_id session_id description : String) (now : Nat) : JobInfo :=
  { id := "job_" ++ session_id ++ "_" ++ toString now,
    workbook_id := workbook_id, session_id := session_id,
    status := JobStatus.Running, description := description,
    started_at := now, updated_at := now }

/-- `JobInfo::is_active`: `self.status == JobStatus::Running`. -/
def JobInfo.is_active (j : JobInfo) : Bool :=
  decide (j.status = JobStatus.Running)

/-- `JobRegistry` of `jobs.rs`: the `jobs` map keyed by job id, and the
`active_count: AtomicU64` counter (kept below `2^64`). -/
structure JobRegistry where
  jobs : List (String × JobInfo)
  active_count : Nat
deriving DecidableEq

/-- `JobRegistry::new`. -/
def JobRegistry.new : JobRegistry :=
  { jobs := [], active_count := 0 }

/-- `JobRegistry::register`: insert the freshly built job under its id and
`fetch_add(1)` the counter; returns the job id. -/
def JobRegistry.register (reg : JobRegistry) (workbook_id session_id description : String)
    (now : Nat) : String × JobRegistry :=
  let job := JobInfo.new workbook_id session_id description now
  (job.id,
    { jobs := insertKey job.id job reg.jobs,
      active_count := (reg.active_count + 1) % U64 })

/-- `JobRegistry::update_status`: if the job exists, overwrite its status and
`updated_at`, and `fetch_sub(1)` the counter exactly when the job was active
and no longer is. -/
def JobRegistry.update_status (reg : JobRegistry) (job_id : String) (status : JobStatus)
    (now : Nat) : JobRegistry :=
  match lookupKey job_id reg.jobs with
  | some job =>
    let was_active := job.is_active
    let job' := { job with status := status, updated_at := now }
    { jobs := insertKey job_id job' reg.jobs,
      active_count :=
        if was_active && !job'.is_active then (reg.active_count + (U64 - 1)) % U64
        else reg.active_count }
  | none => reg

/-- `JobRegistry::complete`. -/
def JobRegistry.complete (reg : JobRegistry) (job_id : String) (now : Nat) : JobRegistry :=
  reg.update_status job_id JobStatus.Completed now

/-- `JobRegistry::fail`. -/
def JobRegistry.fail (reg : JobRegistry) (job_id : String) (now : Nat) : JobRegistry :=
  reg.update_status job_id JobStatus.Failed now

/-- `JobRegistry::cancel`. -/
def JobRegistry.cancel (reg : JobRegistry) (job_id : String) (now : Nat) : JobRegistry :=
  reg.update_status job_id JobStatus.Cancelled now

/-- `JobRegistry::find_by_session`: any stored job with the session id. -/
def JobRegistry.find_by_session (reg : JobRegistry) (session_id : String) : Option JobInfo :=
  (reg.jobs.find? (fun e => e.2.session_id = session_id)).map Prod.snd

/-- `JobRegistry::find_active_by_session`: any stored `Running` job with the
session id. -/
def JobRegistry.find_active_by_session (reg : JobRegistry) (session_id : String) :
    Option JobInfo :=
  (reg.jobs.find? (fun e => e.2.session_id = session_id && e.2.is_active)).map Prod.snd

/-- `JobRegistry::cleanup_old`: retain jobs that are active or updated within
the last hour; `one_hour_ago` is the wrapping `u64` difference `now - 3600000`. -/
def JobRegistry.cleanup_old (reg : JobRegistry) (now : Nat) : JobRegistry :=
  let one_hour_ago := (now + (U64 - 60 * 60 * 1000)) % U64
  { reg with
    jobs := reg.jobs.filter (fun e => e.2.is_active || decide (one_hour_ago < e.2.updated_at)) }

/-- Number of stored jobs whose status is `Running`. -/
def countRunning (jobs : List (String × JobInfo)) : Nat :=
  (jobs.filter (fun e => e.2.is_active)).length

/-- Number of stored jobs with the given session id. -/
def sessionJobCount (session_id : String) (jobs : List (String × JobInfo)) : Nat :=
  (jobs.filter (fun e => e.2.session_id = session_id)).length

/-- Number of stored active jobs with the given session id. -/
def activeSessionCount (session_id : String) (jobs : List (String × JobInfo)) : Nat :=
  (jobs.filter (fun e => e.2.session_id = session_id && e.2.is_active)).length

/-! ### Job-registry operation traces (for the counter claim) -/

/-- One direct `JobRegistry` operation; each carries the wall-clock
milliseconds the source would read from `SystemTime::now()`. -/
inductive JobOp where
  | register (workbook_id session_id description : String) (now : Nat) : JobOp
  | complete (job_id : String) (now : Nat) : JobOp
  | fail (job_id : String) (now : Nat) : JobOp
  | cancel (job_id : String) (now : Nat) : JobOp
  | cleanup (now : Nat) : JobOp
deriving DecidableEq

/-- Apply one operation to the registry. -/
def JobRegistry.applyOp (reg : JobRegistry) : JobOp → JobRegistry
  | JobOp.register wb sid d now => (reg.register wb sid d now).2
  | JobOp.complete jid now => reg.complete jid now
  | JobOp.fail jid now => reg.fail jid now
  | JobOp.cancel jid now => reg.cancel jid now
  | JobOp.cleanup now => reg.cleanup_old now

/-- Run a sequence of registry operations. -/
def runJobOps : JobRegistry → List JobOp → JobRegistry
  | reg, [] => reg
  | reg, op :: rest => runJobOps (reg.applyOp op) rest

/-- The registry after running the operations from a fresh registry. -/
def finalReg (ops : List JobOp) : JobRegistry :=
  runJobOps JobRegistry.new ops

/-- A trace is collision-free when every `register` builds a job id not
currently stored (distinct `(session, millisecond)` pairs guarantee this). -/
def freshRun : JobRegistry → List JobOp → Bool
  | _, [] => true
  | reg, op :: rest =>
    (match op with
      | JobOp.register wb sid d now =>
        (lookupKey (JobInfo.new wb sid d now).id reg.jobs).isNone
      | _ => true)
    && freshRun (reg.applyOp op) rest

/-! ### Session events (`jobs.rs` + `handle_session_event` in `lib.rs`) -/

/-- `SessionEvent` of `jobs.rs` (already JSON-decoded). -/
inductive SessionEvent where
  | SessionUpdated (session_id : String) (status : Option String) : SessionEvent
  | SessionStatus (session_id : String) (status : String) : SessionEvent
  | MessagePartUpdated (session_id : String) : SessionEvent
  | Unknown : SessionEvent
deriving DecidableEq

/-- `SessionEvent::is_running_status`. -/
def SessionEvent.is_running_status : String → Bool
  | "running" | "pending" | "streaming" => true
  | _ => false

/-- `SessionEvent::is_completed_status`. -/
def SessionEvent.is_completed_status : String → Bool
  | "completed" | "idle" | "done" => true
  | _ => false

/-- `SessionEvent::is_failed_status`. -/
def SessionEvent.is_failed_status : String → Bool
  | "failed" | "error" | "cancelled" => true
  | _ => false

/-- The shared mutable state `handle_session_event` can reach (the fields of
`AppState` it and the claims touch). -/
structure AppStateModel where
  workbook_servers : Servers
  runtime_manager : RuntimeManager
  job_registry : JobRegistry
  active_workbook_id : Option String
deriving DecidableEq

/-- The `session.status` branch of `handle_session_event`: classify the
status string; on Running create a job only when no active job exists for the
session (owned by the currently active workbook); on Completed/Failed find
any job for the session and transition it. -/
def handleStatus (session_id status : String) (now : Nat) (st : AppStateModel) :
    AppStateModel :=
  if SessionEvent.is_running_status status then
    match st.job_registry.find_active_by_session session_id with
    | some _ => st
    | none =>
      let workbook_id := st.active_workbook_id.getD ""
      let r := st.job_registry.register workbook_id session_id "AI processing..." now
      { st with job_registry := r.2 }
  else if SessionEvent.is_completed_status status then
    match st.job_registry.find_by_session session_id with
    | some job => { st with job_registry := st.job_registry.complete job.id now }
    | none => st
  else if SessionEvent.is_failed_status status then
    match st.job_registry.find_by_session session_id with
    | some job => { st with job_registry := st.job_registry.fail job.id now }
    | none => st
  else st

/-- `handle_session_event`: `session.status` is classified directly;
`session.updated` with a status is re-dispatched as `session.status`;
everything else is ignored. -/
def handle_session_event (ev : SessionEvent) (now : Nat) (st : AppStateModel) :
    AppStateModel :=
  match ev with
  | SessionEvent.SessionStatus sid status => handleStatus sid status now st
  | SessionEvent.SessionUpdated sid (some status) => handleStatus sid status now st
  | SessionEvent.SessionUpdated _ none => st
  | SessionEvent.MessagePartUpdated _ => st
  | SessionEvent.Unknown => st

/-! ### Concrete scenario states used by the spec's worked examples -/

/-- The runtime entry of tenant `T` with two registered windows `W1`, `W2`
and no active jobs (the spec's teardown scenario). -/
def teardownScenarioEntry : RuntimeInfo :=
  { workbook_id := "T", runtime_port := 55001, postgres_port := 55101,
    worker_port := 55201, processAlive := true, directory := "/t",
    restart_count := 0, active_jobs := 0, windows := ["W1", "W2"] }

/-- A manager holding only the teardown-scenario entry for tenant `T`. -/
def teardownScenarioManager : RuntimeManager :=
  { runtimes := [("T", teardownScenarioEntry)],
    allocated_ports := [55001], next_port := 55002 }

/-- The running job for session `s1` of the event scenario. -/
def eventScenarioJob : JobInfo :=
  JobInfo.new "wb" "s1" "AI processing..." 100

/-- App state of the event scenario: tenant `wb` is the active workbook, its
runtime entry records one active job (`active_jobs = 1`), and the job
registry holds the running job for session `s1`. -/
def eventScenarioState : AppStateModel :=
  { workbook_servers := [],
    runtime_manager :=
      { runtimes :=
          [("wb",
            { workbook_id := "wb", runtime_port := 55001, postgres_port := 55101,
              worker_port := 55201, processAlive := true, directory := "/d",
              restart_count := 0, active_jobs := 1, windows := ["workbook_wb"] })],
        allocated_ports := [55001], next_port := 55002 },
    job_registry := { jobs := [(eventScenarioJob.id, eventScenarioJob)], active_count := 1 },
    active_workbook_id := some "wb" }

/-- App state with an empty job registry and `wb` as the active workbook. -/
def idleState : AppStateModel :=
  { workbook_servers := [], runtime_manager := RuntimeManager.new,
    job_registry := JobRegistry.new, active_workbook_id := some "wb" }

/-- A small collision-free job trace: register a job, complete it, clean up. -/
def jobTraceExample : List JobOp :=
  [JobOp.register "wb" "s1" "work" 0,
   JobOp.complete "job_s1_0" 5,
   JobOp.cleanup 7]

/-- The allocator's state invariant: the allocated set is duplicate-free and
the cursor lies inside the runtime range. -/
def PortInv (m : RuntimeManager) : Prop :=
  m.allocated_ports.Nodup ∧ inRuntimeRange m.next_port

/-- The job registry's counter invariant: the key set is duplicate-free and
the stored counter is the number of `Running` jobs reduced modulo `2^64`. -/
def JobCountInv (reg : JobRegistry) : Prop :=
  keysNodup reg.jobs ∧ reg.active_count = countRunning reg.jobs % U64

/-! ## Association-list lemmas -/

theorem lookupKey_insertKey_self {α : Type} (k : String) (v : α) (l : List (String × α)) :
    lookupKey k (insertKey k v l) = some v := by
  simp [insertKey, lookupKey]

theorem lookupKey_removeKey_self {α : Type} (k : String) (l : List (String × α)) :
    lookupKey k (removeKey k l) = none := by
  induction l with
  | nil => rfl
  | cons e rest ih =>
    by_cases h : e.1 = k
    · simpa [removeKey, List.filter_cons, h] using ih
    · simpa [removeKey, List.filter_cons, h, lookupKey] using ih

theorem lookupKey_removeKey_ne {α : Type} {k k' : String} (h : k' ≠ k)
    (l : List (String × α)) : lookupKey k (removeKey k' l) = lookupKey k l := by
  induction l with
  | nil => rfl
  | cons e rest ih =>
    obtain ⟨a, b⟩ := e
    by_cases he : a = k'
    · have hak : a ≠ k := by rw [he]; exact h
      have h1 : removeKey k' ((a, b) :: rest) = removeKey k' rest := by
        simp [removeKey, List.filter_cons, he]
      rw [h1, ih, lookupKey, if_neg hak]
    · have h1 : removeKey k' ((a, b) :: rest) = (a, b) :: removeKey k' rest := by
        simp [removeKey, List.filter_cons, he]
      rw [h1]
      by_cases hak : a = k
      · rw [lookupKey, if_pos hak, lookupKey, if_pos hak]
      · rw [lookupKey, if_neg hak, lookupKey, if_neg hak, ih]

theorem lookupKey_insertKey_ne {α : Type} {k k' : String} (h : k' ≠ k) (v : α)
    (l : List (String × α)) : lookupKey k (insertKey k' v l) = lookupKey k l := by
  simp only [insertKey, lookupKey, if_neg h]
  exact lookupKey_removeKey_ne h l

theorem lookupKey_some_mem {α : Type} {k : String} {v : α} :
    ∀ {l : List (String × α)}, lookupKey k l = some v → (k, v) ∈ l := by
  intro l
  induction l with
  | nil => intro h; simp [lookupKey] at h
  | cons e rest ih =>
    obtain ⟨a, b⟩ := e
    intro h
    by_cases he : a = k
    · rw [lookupKey, if_pos he] at h
      cases h
      subst he
      exact List.mem_cons_self _ _
    · rw [lookupKey, if_neg he] at h
      exact List.mem_cons_of_mem _ (ih h)

theorem lookupKey_eq_of_mem_nodup {α : Type} :
    ∀ {l : List (String × α)}, keysNodup l → ∀ {k : String} {v : α},
      (k, v) ∈ l → lookupKey k l = some v := by
  intro l
  induction l with
  | nil => intro _ k v h; simp at h
  | cons e rest ih =>
    obtain ⟨a, b⟩ := e
    intro hn k v h
    have hcons : a ∉ rest.map Prod.fst ∧ (rest.map Prod.fst).Nodup := by
      have h0 := hn
      unfold keysNodup at h0
      rw [List.map_cons] at h0
      exact List.nodup_cons.mp h0
    have hn' : keysNodup rest := hcons.2
    rcases List.mem_cons.mp h with h1 | h1
    · injection h1 with h2 h3
      subst h2
      subst h3
      rw [lookupKey, if_pos rfl]
    · have hk : a ≠ k := by
        intro hak
        subst hak
        exact hcons.1 (List.mem_map_of_mem Prod.fst h1)
      rw [lookupKey, if_neg hk]
      exact ih hn' h1

theorem lookupKey_none_iff {α : Type} {k : String} :
    ∀ {l : List (String × α)}, lookupKey k l = none ↔ k ∉ l.map Prod.fst := by
  intro l
  induction l with
  | nil => simp [lookupKey]
  | cons e rest ih =>
    obtain ⟨a, b⟩ := e
    by_cases he : a = k
    · simp [lookupKey, he]
    · simp [lookupKey, he, ih, Ne.symm he]

theorem filter_ne_of_lookupKey_none {α : Type} {k : String} :
    ∀ {l : List (String × α)}, lookupKey k l = none →
      l.filter (fun e => e.1 ≠ k) = l := by
  intro l
  induction l with
  | nil => intro _; rfl
  | cons e rest ih =>
    obtain ⟨a, b⟩ := e
    intro h
    by_cases he : a = k
    · rw [lookupKey, if_pos he] at h
      cases h
    · rw [lookupKey, if_neg he] at h
      have hd : (decide (((a, b) : String × α).1 ≠ k)) = true := by
        simp [he]
      rw [List.filter_cons, if_pos hd, ih h]

theorem keysNodup_removeKey {α : Type} (k : String) {l : List (String × α)}
    (h : keysNodup l) : keysNodup (removeKey k l) := by
  unfold keysNodup removeKey at *
  exact ((List.filter_sublist l).map Prod.fst).nodup h

theorem keysNodup_insertKey {α : Type} (k : String) (v : α) {l : List (String × α)}
    (h : keysNodup l) : keysNodup (insertKey k v l) := by
  unfold keysNodup insertKey
  rw [List.map_cons, List.nodup_cons]
  constructor
  · intro hmem
    rcases List.mem_map.mp hmem with ⟨e, he, hek⟩
    have := List.of_mem_filter he
    simp only [decide_eq_true_eq] at this
    exact this hek
  · exact ((List.filter_sublist l).map Prod.fst).nodup h

/-! ## Port-allocator lemmas and the allocator claims -/

theorem wrapNext_inRange {p : Nat} (h : inRuntimeRange p) : inRuntimeRange (wrapNext p) := by
  unfold inRuntimeRange RUNTIME_PORT_START RUNTIME_PORT_END at *
  unfold wrapNext RUNTIME_PORT_START RUNTIME_PORT_END
  split_ifs <;> omega

theorem allocLoop_some_not_mem (A : List Nat) (s : Nat) :
    ∀ fuel p q, allocLoop A s fuel p = some q → q ∉ A := by
  intro fuel
  induction fuel with
  | zero => intro p q h; simp [allocLoop] at h
  | succ n ih =>
    intro p q h
    by_cases hp : p ∈ A
    · simp only [allocLoop, if_pos hp] at h
      split at h
      · cases h
      · exact ih _ _ h
    · simp only [allocLoop, if_neg hp] at h
      cases h
      exact hp

theorem allocLoop_some_inRange (A : List Nat) (s : Nat) :
    ∀ fuel p q, inRuntimeRange p → allocLoop A s fuel p = some q → inRuntimeRange q := by
  intro fuel
  induction fuel with
  | zero => intro p q _ h; simp [allocLoop] at h
  | succ n ih =>
    intro p q hp h
    by_cases hm : p ∈ A
    · simp only [allocLoop, if_pos hm] at h
      split at h
      · cases h
      · exact ih _ _ (wrapNext_inRange hp) h
    · simp only [allocLoop, if_neg hm] at h
      cases h
      exact hp

theorem allocLoop_none_full (A : List Nat) (s : Nat)
    (hfull : ∀ q, inRuntimeRange q → q ∈ A) :
    ∀ fuel p, inRuntimeRange p → allocLoop A s fuel p = none := by
  intro fuel
  induction fuel with
  | zero => intro p _; rfl
  | succ n ih =>
    intro p hp
    simp only [allocLoop, if_pos (hfull p hp)]
    split
    · rfl
    · exact ih _ (wrapNext_inRange hp)

theorem allocate_port_fst (m : RuntimeManager) :
    (m.allocate_port).1
      = allocLoop m.allocated_ports m.next_port RUNTIME_RANGE_SIZE m.next_port := by
  unfold RuntimeManager.allocate_port
  cases h : allocLoop m.allocated_ports m.next_port RUNTIME_RANGE_SIZE m.next_port <;>
    simp [h]

theorem PortInv_allocate (m : RuntimeManager) (h : PortInv m) :
    PortInv (m.allocate_port).2 := by
  obtain ⟨hnd, hin⟩ := h
  unfold RuntimeManager.allocate_port
  cases hr : allocLoop m.allocated_ports m.next_port RUNTIME_RANGE_SIZE m.next_port with
  | none => simpa [hr] using And.intro hnd hin
  | some p =>
    simp only [hr]
    refine ⟨List.nodup_cons.mpr ⟨allocLoop_some_not_mem _ _ _ _ _ hr, hnd⟩, ?_⟩
    exact wrapNext_inRange (allocLoop_some_inRange _ _ _ _ _ hin hr)

theorem PortInv_release (m : RuntimeManager) (p : Nat) (h : PortInv m) :
    PortInv (m.release_port p) := by
  obtain ⟨hnd, hin⟩ := h
  exact ⟨((List.filter_sublist m.allocated_ports)).nodup hnd, hin⟩

theorem PortInv_runPortOps (ops : List PortOp) :
    ∀ m, PortInv m → PortInv (runPortOps m ops) := by
  induction ops with
  | nil => intro m h; exact h
  | cons op rest ih =>
    intro m h
    cases op with
    | alloc => exact ih _ (PortInv_allocate m h)
    | release p => exact ih _ (PortInv_release m p h)

theorem PortInv_new : PortInv RuntimeManager.new := by
  constructor
  · exact List.nodup_nil
  · exact (by decide : inRuntimeRange RUNTIME_PORT_START)

theorem mem_runtimeRangeList (q : Nat) : q ∈ runtimeRangeList ↔ inRuntimeRange q := by
  simp only [runtimeRangeList, List.mem_map, List.mem_range, inRuntimeRange,
    RUNTIME_RANGE_SIZE, RUNTIME_PORT_START, RUNTIME_PORT_END]
  constructor
  · rintro ⟨i, hi, rfl⟩
    omega
  · intro h
    exact ⟨q - 55001, by omega, by omega⟩

/-- C6: starting from a fresh manager, after any sequence of
`allocate_port`/`release_port` calls the allocated set is duplicate-free (no
two simultaneously-allocated ports are equal), the cursor is in range, a
granted port is never one that is currently allocated and always lies in
`[55001, 55049]`, and once every port of the range is allocated the next
`allocate_port` returns `none`. -/
theorem C6_allocator_correct (ops : List PortOp) :
    (runPortOps RuntimeManager.new ops).allocated_ports.Nodup
    ∧ inRuntimeRange (runPortOps RuntimeManager.new ops).next_port
    ∧ (∀ q, ((runPortOps RuntimeManager.new ops).allocate_port).1 = some q →
        q ∉ (runPortOps RuntimeManager.new ops).allocated_ports ∧ inRuntimeRange q)
    ∧ ((∀ q ∈ runtimeRangeList, q ∈ (runPortOps RuntimeManager.new ops).allocated_ports) →
        ((runPortOps RuntimeManager.new ops).allocate_port).1 = none) := by
  obtain ⟨hnd, hin⟩ := PortInv_runPortOps ops RuntimeManager.new PortInv_new
  refine ⟨hnd, hin, ?_, ?_⟩
  · intro q hq
    rw [allocate_port_fst] at hq
    exact ⟨allocLoop_some_not_mem _ _ _ _ _ hq, allocLoop_some_inRange _ _ _ _ _ hin hq⟩
  · intro hfull
    rw [allocate_port_fst]
    exact allocLoop_none_full _ _
      (fun q hq => hfull q ((mem_runtimeRangeList q).mpr hq)) _ _ hin

set_option maxHeartbeats 1600000 in
set_option maxRecDepth 8192 in
/-- Witness for C6: with one port allocated the next grant is the fresh
in-range port 55002, and after 49 allocations the allocator reports
exhaustion. -/
theorem C6_allocator_correct_witness :
    (55002 ∉ (runPortOps RuntimeManager.new [PortOp.alloc]).allocated_ports
      ∧ inRuntimeRange 55002)
    ∧ ((runPortOps RuntimeManager.new
          (List.replicate RUNTIME_RANGE_SIZE PortOp.alloc)).allocate_port).1 = none :=
  ⟨(C6_allocator_correct [PortOp.alloc]).2.2.1 55002 (by decide),
   (C6_allocator_correct (List.replicate RUNTIME_RANGE_SIZE PortOp.alloc)).2.2.2
     (by decide)⟩

set_option maxHeartbeats 8000000 in
set_option maxRecDepth 8192 in
/-- C7: for every `N` up to the range size, allocating `N` ports, releasing
all of them, and allocating a full range worth again visits the whole port
range before any port repeats (the first 49 grants overall are
duplicate-free and cover the range), and for `N < 49` the first grant after
the release is not one of the just-released ports. -/
theorem C7_round_robin (N : Nat) (h : N ≤ RUNTIME_RANGE_SIZE) :
    (((roundRobinPorts N).1 ++ (roundRobinPorts N).2).take RUNTIME_RANGE_SIZE).Nodup
    ∧ (∀ q ∈ runtimeRangeList,
        q ∈ ((roundRobinPorts N).1 ++ (roundRobinPorts N).2).take RUNTIME_RANGE_SIZE)
    ∧ (N < RUNTIME_RANGE_SIZE →
        ∀ q ∈ (roundRobinPorts N).2.take 1, q ∉ (roundRobinPorts N).1) := by
  revert h
  revert N
  show ∀ N, N ≤ RUNTIME_RANGE_SIZE → _
  decide

/-! ## Window-close teardown lemmas and claim C4 -/

theorem unregister_window_of_get {m : RuntimeManager} {wb label : String} {r : RuntimeInfo}
    (hl : m.get wb = some r) :
    m.unregister_window wb label
      = ((r.windows.erase label).isEmpty,
         { m with runtimes :=
             insertKey wb { r with windows := r.windows.erase label } m.runtimes }) := by
  unfold RuntimeManager.get at hl
  unfold RuntimeManager.unregister_window
  rw [hl]

theorem remove_of_get {m : RuntimeManager} {wb : String} {r : RuntimeInfo}
    (hl : m.get wb = some r) :
    m.remove wb
      = (some r,
         { m with runtimes := removeKey wb m.runtimes,
                  allocated_ports :=
                    m.allocated_ports.filter (fun q => q ≠ r.runtime_port) }) := by
  unfold RuntimeManager.get at hl
  unfold RuntimeManager.remove
  rw [hl]
  rfl

theorem teardown_eligible_of_get {m : RuntimeManager} {wb label : String} {r : RuntimeInfo}
    (hl : m.get wb = some r) :
    teardown_eligible m wb label
      = ((r.windows.erase label).isEmpty && !decide (0 < r.active_jobs),
         { m with runtimes :=
             insertKey wb { r with windows := r.windows.erase label } m.runtimes }) := by
  have hget :
      ({ m with runtimes :=
          insertKey wb { r with windows := r.windows.erase label } m.runtimes }
        : RuntimeManager).get wb
        = some { r with windows := r.windows.erase label } := by
    unfold RuntimeManager.get
    exact lookupKey_insertKey_self wb _ m.runtimes
  unfold teardown_eligible
  rw [unregister_window_of_get hl]
  dsimp only
  rw [hget]
  simp [RuntimeInfo.has_active_jobs]

/-- C4: for a tenant with a registered runtime, the window-close handler
tears the worker down exactly when unregistering the window empties the
tenant's window set and its active-job count is zero; on teardown the entry
is gone, its port is released and the process is killed, otherwise the entry
survives (only the window set shrank) and nothing is killed.  In the spec's
scenario — windows `W1`, `W2` registered for tenant `T` with no active jobs —
unregistering `W1` alone leaves the gate closed, and then unregistering `W2`
opens it. -/
theorem C4_teardown_gate (m : RuntimeManager) (wb : String) (r : RuntimeInfo)
    (hl : m.get wb = some r) :
    ((close_workbook_window_step m wb).1 = true
      ↔ ((r.windows.erase ("workbook_" ++ wb)).isEmpty = true ∧ r.active_jobs = 0))
    ∧ ((close_workbook_window_step m wb).1 = true →
        ((close_workbook_window_step m wb).2.2.get wb = none
          ∧ r.runtime_port ∉ (close_workbook_window_step m wb).2.2.allocated_ports
          ∧ (close_workbook_window_step m wb).2.1 = [wb]))
    ∧ ((close_workbook_window_step m wb).1 = false →
        ((close_workbook_window_step m wb).2.2.get wb
            = some { r with windows := r.windows.erase ("workbook_" ++ wb) }
          ∧ (close_workbook_window_step m wb).2.1 = []))
    ∧ ((teardown_eligible teardownScenarioManager "T" "W1").1 = false
        ∧ (teardown_eligible (teardown_eligible teardownScenarioManager "T" "W1").2
            "T" "W2").1 = true) := by
  have hts := @teardown_eligible_of_get m wb ("workbook_" ++ wb) r hl
  have hget1 :
      ({ m with runtimes :=
          insertKey wb { r with windows := r.windows.erase ("workbook_" ++ wb) } m.runtimes }
        : RuntimeManager).get wb
        = some { r with windows := r.windows.erase ("workbook_" ++ wb) } := by
    unfold RuntimeManager.get
    exact lookupKey_insertKey_self wb _ m.runtimes
  have hrem := remove_of_get hget1
  have hstep :
      close_workbook_window_step m wb
        = if ((r.windows.erase ("workbook_" ++ wb)).isEmpty && !decide (0 < r.active_jobs))
          then (true, [wb],
            { m with
              runtimes := removeKey wb
                (insertKey wb { r with windows := r.windows.erase ("workbook_" ++ wb) }
                  m.runtimes),
              allocated_ports :=
                m.allocated_ports.filter (fun q => q ≠ r.runtime_port) })
          else (false, [],
            { m with runtimes :=
                (insertKey wb { r with windows := r.windows.erase ("workbook_" ++ wb) }
                  m.runtimes) }) := by
    unfold close_workbook_window_step
    dsimp only
    rw [hts]
    dsimp only
    by_cases hb : ((r.windows.erase ("workbook_" ++ wb)).isEmpty && !decide (0 < r.active_jobs)) = true
    · rw [if_pos hb, if_pos hb, hrem]
    · rw [if_neg hb, if_neg hb]
  by_cases hb : ((r.windows.erase ("workbook_" ++ wb)).isEmpty && !decide (0 < r.active_jobs)) = true
  · rw [hstep, if_pos hb]
    refine ⟨?_, ?_, ?_, ?_⟩
    · simp only [true_iff]
      have := hb
      simp only [Bool.and_eq_true, Bool.not_eq_true', decide_eq_false_iff_not] at this
      exact ⟨this.1, by omega⟩
    · intro _
      refine ⟨?_, ?_, rfl⟩
      · unfold RuntimeManager.get
        exact lookupKey_removeKey_self wb _
      · intro hmem
        have := List.of_mem_filter hmem
        simp at this
    · intro hfalse
      cases hfalse
    · exact ⟨by decide, by decide⟩
  · rw [hstep, if_neg hb]
    dsimp only
    refine ⟨?_, ?_, ?_, ?_⟩
    · constructor
      · intro hcontr
        cases hcontr
      · intro hcond
        exfalso
        apply hb
        simp only [Bool.and_eq_true, Bool.not_eq_true', decide_eq_false_iff_not]
        exact ⟨hcond.1, by omega⟩
    · intro htrue
      cases htrue
    · intro _
      exact ⟨hget1, rfl⟩
    · exact ⟨by decide, by decide⟩

/-- Witness for C4 at the spec's scenario state. -/
theorem C4_teardown_gate_witness :
    ((close_workbook_window_step teardownScenarioManager "T").1 = true
      ↔ (((teardownScenarioEntry.windows.erase ("workbook_" ++ "T")).isEmpty = true
          ∧ teardownScenarioEntry.active_jobs = 0)))
    ∧ ((close_workbook_window_step teardownScenarioManager "T").1 = true →
        ((close_workbook_window_step teardownScenarioManager "T").2.2.get "T" = none
          ∧ teardownScenarioEntry.runtime_port
              ∉ (close_workbook_window_step teardownScenarioManager "T").2.2.allocated_ports
          ∧ (close_workbook_window_step teardownScenarioManager "T").2.1 = ["T"]))
    ∧ ((close_workbook_window_step teardownScenarioManager "T").1 = false →
        ((close_workbook_window_step teardownScenarioManager "T").2.2.get "T"
            = some { teardownScenarioEntry with
                windows := teardownScenarioEntry.windows.erase ("workbook_" ++ "T") }
          ∧ (close_workbook_window_step teardownScenarioManager "T").2.1 = []))
    ∧ ((teardown_eligible teardownScenarioManager "T" "W1").1 = false
        ∧ (teardown_eligible (teardown_eligible teardownScenarioManager "T" "W1").2
            "T" "W2").1 = true) :=
  C4_teardown_gate teardownScenarioManager "T" teardownScenarioEntry (by decide)

/-- Witness for C7 at `N = 3`. -/
theorem C7_round_robin_witness :
    (3 : Nat) ≤ RUNTIME_RANGE_SIZE
    ∧ ((((roundRobinPorts 3).1 ++ (roundRobinPorts 3).2).take RUNTIME_RANGE_SIZE).Nodup
      ∧ (∀ q ∈ runtimeRangeList,
          q ∈ ((roundRobinPorts 3).1 ++ (roundRobinPorts 3).2).take RUNTIME_RANGE_SIZE)
      ∧ (3 < RUNTIME_RANGE_SIZE →
          ∀ q ∈ (roundRobinPorts 3).2.take 1, q ∉ (roundRobinPorts 3).1)) :=
  ⟨by decide, C7_round_robin 3 (by decide)⟩

/-! ## Restart-monitor lemmas and claims C1, C8 -/

theorem lookupKey_removeKey_none {α : Type} (k k' : String) (l : List (String × α))
    (h : lookupKey k l = none) : lookupKey k (removeKey k' l) = none := by
  by_cases he : k' = k
  · subst he
    exact lookupKey_removeKey_self _ _
  · rw [lookupKey_removeKey_ne he]
    exact h

theorem lookupKey_foldl_removeKey_not_mem (L : List (String × String × Nat)) (wb : String) :
    ∀ s : Servers, wb ∉ L.map (fun t => t.1) →
      lookupKey wb (L.foldl (fun s t => removeKey t.1 s) s) = lookupKey wb s := by
  induction L with
  | nil => intro s _; rfl
  | cons t rest ih =>
    intro s h
    rw [List.map_cons] at h
    have h1 : wb ≠ t.1 := fun he => h (he ▸ List.mem_cons_self _ _)
    have h2 : wb ∉ rest.map (fun t => t.1) := fun hm => h (List.mem_cons_of_mem _ hm)
    rw [List.foldl_cons, ih _ h2, lookupKey_removeKey_ne (Ne.symm h1)]

theorem lookupKey_foldl_removeKey_none (L : List (String × String × Nat)) (wb : String) :
    ∀ s : Servers, lookupKey wb s = none →
      lookupKey wb (L.foldl (fun s t => removeKey t.1 s) s) = none := by
  induction L with
  | nil => intro s h; exact h
  | cons t rest ih =>
    intro s h
    rw [List.foldl_cons]
    exact ih _ (lookupKey_removeKey_none wb t.1 s h)

theorem lookupKey_foldl_removeKey_mem (L : List (String × String × Nat)) (wb : String) :
    ∀ s : Servers, wb ∈ L.map (fun t => t.1) →
      lookupKey wb (L.foldl (fun s t => removeKey t.1 s) s) = none := by
  induction L with
  | nil => intro s h; exact absurd h (List.not_mem_nil wb)
  | cons t rest ih =>
    intro s h
    rw [List.map_cons] at h
    rw [List.foldl_cons]
    by_cases he : t.1 = wb
    · subst he
      exact lookupKey_foldl_removeKey_none rest _ _ (lookupKey_removeKey_self _ s)
    · have h2 : wb ∈ rest.map (fun t => t.1) :=
        (List.mem_cons.mp h).resolve_left (fun heq => he heq.symm)
      exact ih _ h2

theorem lookupKey_respawnStep_ne (spawn : String → String → Option Nat) {wb : String}
    (s : Servers) (t : String × String × Nat) (h : t.1 ≠ wb) :
    lookupKey wb (respawnStep spawn s t) = lookupKey wb s := by
  unfold respawnStep
  cases hsp : spawn t.1 t.2.1 with
  | none => rfl
  | some port => exact lookupKey_insertKey_ne h _ s

theorem lookupKey_foldl_respawn_not_mem (spawn : String → String → Option Nat)
    (L : List (String × String × Nat)) (wb : String) :
    ∀ s : Servers, wb ∉ L.map (fun t => t.1) →
      lookupKey wb (L.foldl (respawnStep spawn) s) = lookupKey wb s := by
  induction L with
  | nil => intro s _; rfl
  | cons t rest ih =>
    intro s h
    rw [List.map_cons] at h
    have h1 : wb ≠ t.1 := fun he => h (he ▸ List.mem_cons_self _ _)
    have h2 : wb ∉ rest.map (fun t => t.1) := fun hm => h (List.mem_cons_of_mem _ hm)
    rw [List.foldl_cons, ih _ h2, lookupKey_respawnStep_ne spawn s t (Ne.symm h1)]

theorem lookupKey_foldl_respawn_found (spawn : String → String → Option Nat)
    (L : List (String × String × Nat)) (wb d : String) (c p : Nat) :
    ∀ s : Servers, (L.map (fun t => t.1)).Nodup → (wb, d, c) ∈ L → spawn wb d = some p →
      lookupKey wb (L.foldl (respawnStep spawn) s)
        = some { childExited := false, runtime_port := p,
                 directory := d, restart_count := c } := by
  induction L with
  | nil => intro s _ h _; exact absurd h (List.not_mem_nil _)
  | cons t rest ih =>
    intro s hnd hmem hsp
    rw [List.map_cons] at hnd
    have hnd2 := List.nodup_cons.mp hnd
    rw [List.foldl_cons]
    rcases List.mem_cons.mp hmem with h1 | h1
    · subst h1
      have hnotin : wb ∉ rest.map (fun t => t.1) := hnd2.1
      rw [lookupKey_foldl_respawn_not_mem spawn rest wb _ hnotin]
      unfold respawnStep
      dsimp only
      rw [hsp]
      exact lookupKey_insertKey_self _ _ _
    · exact ih _ hnd2.2 h1 hsp

theorem mem_monitorToRestart {servers : Servers} {wb : String} {r : WorkbookServerProcess}
    (hl : lookupKey wb servers = some r) (hex : r.childExited = true)
    (hrc : r.restart_count < MAX_RESTARTS) :
    (wb, r.directory, r.restart_count + 1) ∈ monitorToRestart servers := by
  unfold monitorToRestart
  apply List.mem_map.mpr
  refine ⟨(wb, r), ?_, rfl⟩
  apply List.mem_filter.mpr
  exact ⟨lookupKey_some_mem hl, by simp [hex, hrc]⟩

theorem monitorToRestart_keys_nodup {servers : Servers} (h : keysNodup servers) :
    ((monitorToRestart servers).map (fun t => t.1)).Nodup := by
  unfold monitorToRestart
  rw [List.map_map]
  unfold keysNodup at h
  exact ((List.filter_sublist servers).map Prod.fst).nodup h

theorem stale_not_mem_toRestart_keys {servers : Servers} {wb : String}
    {r : WorkbookServerProcess} (hnd : keysNodup servers)
    (hl : lookupKey wb servers = some r) (hrc : MAX_RESTARTS ≤ r.restart_count) :
    wb ∉ (monitorToRestart servers).map (fun t => t.1) := by
  intro hmem
  unfold monitorToRestart at hmem
  rw [List.map_map] at hmem
  rcases List.mem_map.mp hmem with ⟨e, he, hek⟩
  obtain ⟨a, b⟩ := e
  have hmemsrv := List.mem_of_mem_filter he
  have hpred := List.of_mem_filter he
  simp only [Function.comp] at hek
  subst hek
  have hba : lookupKey a servers = some b := lookupKey_eq_of_mem_nodup hnd hmemsrv
  rw [hl] at hba
  injection hba with hb
  subst hb
  simp only [Bool.and_eq_true, decide_eq_true_eq] at hpred
  omega

theorem keysNodup_foldl_removeKey (L : List (String × String × Nat)) :
    ∀ s : Servers, keysNodup s →
      keysNodup (L.foldl (fun s t => removeKey t.1 s) s) := by
  induction L with
  | nil => intro s h; exact h
  | cons t rest ih =>
    intro s h
    rw [List.foldl_cons]
    exact ih _ (keysNodup_removeKey t.1 h)

theorem keysNodup_respawnStep (spawn : String → String → Option Nat) (s : Servers)
    (t : String × String × Nat) (h : keysNodup s) : keysNodup (respawnStep spawn s t) := by
  unfold respawnStep
  cases hsp : spawn t.1 t.2.1 with
  | none => exact h
  | some port => exact keysNodup_insertKey _ _ h

theorem keysNodup_foldl_respawn (spawn : String → String → Option Nat)
    (L : List (String × String × Nat)) :
    ∀ s : Servers, keysNodup s → keysNodup (L.foldl (respawnStep spawn) s) := by
  induction L with
  | nil => intro s h; exact h
  | cons t rest ih =>
    intro s h
    rw [List.foldl_cons]
    exact ih _ (keysNodup_respawnStep spawn s t h)

theorem keysNodup_monitorStep (spawn : String → String → Option Nat) {servers : Servers}
    (h : keysNodup servers) : keysNodup (monitorStep spawn servers) := by
  unfold monitorStep
  exact keysNodup_foldl_respawn spawn _ _
    (keysNodup_foldl_removeKey _ _ h)

theorem monitorStep_stale (spawn : String → String → Option Nat) {servers : Servers}
    {wb : String} {r : WorkbookServerProcess} (hnd : keysNodup servers)
    (hl : lookupKey wb servers = some r) (hrc : MAX_RESTARTS ≤ r.restart_count) :
    lookupKey wb (monitorStep spawn servers) = some r := by
  have hnm := stale_not_mem_toRestart_keys hnd hl hrc
  unfold monitorStep
  rw [lookupKey_foldl_respawn_not_mem spawn _ wb _ hnm]
  unfold monitorAfterRemove
  rw [lookupKey_foldl_removeKey_not_mem _ wb _ hnm]
  exact hl

/-- C1 counterexample: a tenant whose worker has exited after reaching
`MAX_RESTARTS` keeps its (stale) registry entry across a monitor tick — the
monitor does not remove it, so the tenant does have a registry entry,
contrary to the claim. -/
theorem C1_counterexample :
    lookupKey "wb1" (monitorStep (fun _ _ => none)
        [("wb1", { childExited := true, runtime_port := 55001,
                   directory := "/w", restart_count := 5 })])
      = some { childExited := true, runtime_port := 55001,
               directory := "/w", restart_count := 5 }
    ∧ ¬ lookupKey "wb1" (monitorStep (fun _ _ => none)
        [("wb1", { childExited := true, runtime_port := 55001,
                   directory := "/w", restart_count := 5 })]) = none := by
  decide

/-- C1 amended: once a tenant's worker has exited with
`restart_count ≥ MAX_RESTARTS`, the monitor never again attempts a spawn for
it and never changes its entry — but the stale entry REMAINS in the registry
(the monitor only logs); the tenant is not removed. -/
theorem C1_exhausted_no_more_spawns (spawn : String → String → Option Nat)
    (servers : Servers) (wb : String) (r : WorkbookServerProcess) (n : Nat)
    (hnd : keysNodup servers) (hl : lookupKey wb servers = some r)
    (hex : r.childExited = true) (hrc : MAX_RESTARTS ≤ r.restart_count) :
    lookupKey wb (monitorIter spawn n servers) = some r
    ∧ wb ∉ monitorSpawnAttempts (monitorIter spawn n servers) := by
  have main : ∀ k s, keysNodup s → lookupKey wb s = some r →
      keysNodup (monitorIter spawn k s)
      ∧ lookupKey wb (monitorIter spawn k s) = some r := by
    intro k
    induction k with
    | zero => intro s h1 h2; exact ⟨h1, h2⟩
    | succ j ih =>
      intro s h1 h2
      exact ih _ (keysNodup_monitorStep spawn h1) (monitorStep_stale spawn h1 h2 hrc)
  obtain ⟨hnd', hl'⟩ := main n servers hnd hl
  exact ⟨hl', stale_not_mem_toRestart_keys hnd' hl' hrc⟩

/-- Witness for the amended C1 after three monitor ticks. -/
theorem C1_exhausted_no_more_spawns_witness :
    lookupKey "wb1" (monitorIter (fun _ _ => none) 3
        [("wb1", { childExited := true, runtime_port := 55001,
                   directory := "/w", restart_count := 5 })])
      = some { childExited := true, runtime_port := 55001,
               directory := "/w", restart_count := 5 }
    ∧ "wb1" ∉ monitorSpawnAttempts (monitorIter (fun _ _ => none) 3
        [("wb1", { childExited := true, runtime_port := 55001,
                   directory := "/w", restart_count := 5 })]) :=
  C1_exhausted_no_more_spawns (fun _ _ => none)
    [("wb1", { childExited := true, runtime_port := 55001,
               directory := "/w", restart_count := 5 })]
    "wb1"
    { childExited := true, runtime_port := 55001, directory := "/w", restart_count := 5 }
    3 (by decide) (by decide) (by decide) (by decide)

/-- C8: a registered worker that has exited with `restart_count` below
`MAX_RESTARTS` is removed from the registry by the monitor's removal phase
and, when the re-run handshake for the same tenant and the same directory
succeeds with port `p`, is re-inserted with the directory unchanged and
`restart_count` exactly one higher. -/
theorem C8_monitor_restart (spawn : String → String → Option Nat) (servers : Servers)
    (wb : String) (r : WorkbookServerProcess) (p : Nat)
    (hnd : keysNodup servers) (hl : lookupKey wb servers = some r)
    (hex : r.childExited = true) (hrc : r.restart_count < MAX_RESTARTS)
    (hsp : spawn wb r.directory = some p) :
    lookupKey wb (monitorAfterRemove servers) = none
    ∧ lookupKey wb (monitorStep spawn servers)
        = some { childExited := false, runtime_port := p,
                 directory := r.directory, restart_count := r.restart_count + 1 } := by
  have hmem := mem_monitorToRestart hl hex hrc
  have hmemkeys : wb ∈ (monitorToRestart servers).map (fun t => t.1) :=
    List.mem_map.mpr ⟨_, hmem, rfl⟩
  constructor
  · unfold monitorAfterRemove
    exact lookupKey_foldl_removeKey_mem _ wb _ hmemkeys
  · unfold monitorStep
    exact lookupKey_foldl_respawn_found spawn _ wb r.directory (r.restart_count + 1) p _
      (monitorToRestart_keys_nodup hnd) hmem hsp

/-- Witness for C8: a crashed worker with restart count 2 is respawned on
port 55002 and re-registered with restart count 3 and the same directory. -/
theorem C8_monitor_restart_witness :
    lookupKey "wb1" (monitorAfterRemove
        [("wb1", { childExited := true, runtime_port := 55001,
                   directory := "/w", restart_count := 2 })]) = none
    ∧ lookupKey "wb1" (monitorStep (fun _ _ => some 55002)
        [("wb1", { childExited := true, runtime_port := 55001,
                   directory := "/w", restart_count := 2 })])
        = some { childExited := false, runtime_port := 55002,
                 directory := "/w", restart_count := 3 } :=
  C8_monitor_restart (fun _ _ => some 55002)
    [("wb1", { childExited := true, runtime_port := 55001,
               directory := "/w", restart_count := 2 })]
    "wb1"
    { childExited := true, runtime_port := 55001, directory := "/w", restart_count := 2 }
    55002 (by decide) (by decide) (by decide) (by decide) rfl

/-! ## Spawn/handshake and start-command claims C2, C5 -/

theorem readyScan_none_of_no_ready (parse : String → Option WorkbookServerReady) :
    ∀ lines : List String,
      (∀ line ∈ lines, ∀ ready, parse line = some ready → ¬ ready.msg_type = "ready") →
      readyScan parse lines = none := by
  intro lines
  induction lines with
  | nil => intro _; rfl
  | cons line rest ih =>
    intro h
    have hrest : ∀ l ∈ rest, ∀ ready, parse l = some ready → ¬ ready.msg_type = "ready" :=
      fun l hl => h l (List.mem_cons_of_mem _ hl)
    have hline := h line (List.mem_cons_self _ _)
    unfold readyScan
    by_cases hs : line.startsWith "\x7b"
    · rw [if_pos hs]
      cases hp : parse line with
      | none => exact ih hrest
      | some ready =>
        dsimp only
        rw [if_neg (hline ready hp)]
        exact ih hrest
    · rw [if_neg hs]
      exact ih hrest

/-- C5: if the 60-second handshake timeout elapses, or the worker's stdout
stream ends without any line parsing as a ready message, then
`spawn_workbook_server` returns an error with the child killed, and the start
command's registry on this path holds no entry for the tenant (nothing is
inserted). -/
theorem C5_handshake_failure (parse : String → Option WorkbookServerReady)
    (timedOut : Bool) (stdoutLines : List String) (servers : Servers) (wb dir : String)
    (h : timedOut = true
      ∨ (∀ line ∈ stdoutLines, ∀ ready,
          parse line = some ready → ¬ ready.msg_type = "ready")) :
    (spawn_workbook_server parse timedOut stdoutLines).port = none
    ∧ (spawn_workbook_server parse timedOut stdoutLines).childKilled = true
    ∧ (start_workbook_server_step servers wb dir
        (spawn_workbook_server parse timedOut stdoutLines)).servers = []
    ∧ lookupKey wb (start_workbook_server_step servers wb dir
        (spawn_workbook_server parse timedOut stdoutLines)).servers = none := by
  have hscan : spawn_workbook_server parse timedOut stdoutLines
      = { port := none, childKilled := true } := by
    unfold spawn_workbook_server
    rcases h with ht | hnr
    · rw [ht]
      simp
    · have hr := readyScan_none_of_no_ready parse stdoutLines hnr
      cases htb : timedOut with
      | true => simp
      | false => simp [hr]
  refine ⟨?_, ?_, ?_, ?_⟩ <;> rw [hscan] <;> rfl

/-- Witness for C5: a worker that prints only a boot line that does not parse
as JSON. -/
theorem C5_handshake_failure_witness :
    (spawn_workbook_server (fun _ => none) false ["boot log line"]).port = none
    ∧ (spawn_workbook_server (fun _ => none) false ["boot log line"]).childKilled = true
    ∧ (start_workbook_server_step
        [("wb1", { childExited := false, runtime_port := 55001,
                   directory := "/w", restart_count := 0 })] "wb1" "/w"
        (spawn_workbook_server (fun _ => none) false ["boot log line"])).servers = []
    ∧ lookupKey "wb1" (start_workbook_server_step
        [("wb1", { childExited := false, runtime_port := 55001,
                   directory := "/w", restart_count := 0 })] "wb1" "/w"
        (spawn_workbook_server (fun _ => none) false ["boot log line"])).servers = none :=
  C5_handshake_failure (fun _ => none) false ["boot log line"]
    [("wb1", { childExited := false, runtime_port := 55001,
               directory := "/w", restart_count := 0 })] "wb1" "/w"
    (Or.inr (fun _ _ _ hp => Option.noConfusion hp))

/-- C2 counterexample: with a live entry for `wb1` already registered, a
start request for `wb1` stops that existing worker (its id is in the stopped
list) and replaces its entry with a freshly spawned one — it is not the
idempotent no-spawn, no-stop return the claim describes. -/
theorem C2_counterexample :
    (start_workbook_server_step
        [("wb1", { childExited := false, runtime_port := 55003,
                   directory := "/w", restart_count := 2 })] "wb1" "/w"
        { port := some 55001, childKilled := false }).stopped = ["wb1"]
    ∧ ¬ lookupKey "wb1" (start_workbook_server_step
        [("wb1", { childExited := false, runtime_port := 55003,
                   directory := "/w", restart_count := 2 })] "wb1" "/w"
        { port := some 55001, childKilled := false }).servers
        = some { childExited := false, runtime_port := 55003,
                 directory := "/w", restart_count := 2 } := by
  decide

/-- C2 amended: a start request is never idempotent: it stops every existing
worker (the requesting tenant's own included), spawns a fresh worker, and on
handshake success the registry maps the tenant to a brand-new entry with
`restart_count 0` and the newly negotiated port, all other entries gone. -/
theorem C2_start_stops_all_and_respawns (servers : Servers) (wb dir : String)
    (p : Nat) (k : Bool) :
    start_workbook_server_step servers wb dir { port := some p, childKilled := k }
      = { status := some p, stopped := servers.map Prod.fst,
          servers := [(wb, { childExited := false, runtime_port := p,
                             directory := dir, restart_count := 0 })] } := by
  unfold start_workbook_server_step
  rfl

/-! ## Job-registry lemmas -/

theorem U64_val : U64 = 18446744073709551616 := by
  norm_num [U64]

theorem mod_succ_eq (a : Nat) : (a % U64 + 1) % U64 = (a + 1) % U64 := by
  conv_rhs => rw [Nat.add_mod]
  rw [Nat.mod_eq_of_lt (by rw [U64_val]; omega : (1 : Nat) < U64)]

theorem mod_pred_eq (a : Nat) (ha : 1 ≤ a) :
    (a % U64 + (U64 - 1)) % U64 = (a - 1) % U64 := by
  have hsub : (U64 - 1) % U64 = U64 - 1 := Nat.mod_eq_of_lt (by rw [U64_val]; omega)
  have h2 : a + (U64 - 1) = (a - 1) + U64 := by rw [U64_val]; omega
  conv_lhs => rw [← hsub]
  rw [← Nat.add_mod, h2, Nat.add_mod_right]

theorem is_active_new (wb sid d : String) (now : Nat) :
    (JobInfo.new wb sid d now).is_active = true := rfl

theorem is_active_set_terminal {j : JobInfo} {st : JobStatus}
    (h : ¬ st = JobStatus.Running) (now : Nat) :
    ({ j with status := st, updated_at := now } : JobInfo).is_active = false := by
  unfold JobInfo.is_active
  simp [h]

theorem countRunning_cons (a : String) (b : JobInfo) (rest : List (String × JobInfo)) :
    countRunning ((a, b) :: rest)
      = (if b.is_active then 1 else 0) + countRunning rest := by
  unfold countRunning
  rw [List.filter_cons]
  by_cases hb : b.is_active = true
  · simp only [hb, if_true, List.length_cons]
    omega
  · simp [hb]

theorem countRunning_insertKey (k : String) (v : JobInfo) (l : List (String × JobInfo)) :
    countRunning (insertKey k v l)
      = (if v.is_active then 1 else 0) + countRunning (l.filter (fun e => e.1 ≠ k)) := by
  unfold insertKey
  exact countRunning_cons k v _

theorem countRunning_filter_ne_some :
    ∀ {l : List (String × JobInfo)}, keysNodup l → ∀ {k : String} {v : JobInfo},
      lookupKey k l = some v →
      countRunning (l.filter (fun e => e.1 ≠ k)) + (if v.is_active then 1 else 0)
        = countRunning l := by
  intro l
  induction l with
  | nil => intro _ k v h; simp [lookupKey] at h
  | cons e rest ih =>
    obtain ⟨a, b⟩ := e
    intro hn k v h
    have hcons : a ∉ rest.map Prod.fst ∧ (rest.map Prod.fst).Nodup := by
      have h0 := hn
      unfold keysNodup at h0
      rw [List.map_cons] at h0
      exact List.nodup_cons.mp h0
    by_cases ha : a = k
    · rw [lookupKey, if_pos ha] at h
      injection h with hb
      subst ha
      rw [← hb]
      have hnone : lookupKey a rest = none := lookupKey_none_iff.mpr hcons.1
      rw [List.filter_cons,
        if_neg (by simp : ¬ (decide (((a, b) : String × JobInfo).1 ≠ a)) = true),
        filter_ne_of_lookupKey_none hnone, countRunning_cons]
      omega
    · rw [lookupKey, if_neg ha] at h
      have hd : (decide (((a, b) : String × JobInfo).1 ≠ k)) = true := by simp [ha]
      rw [List.filter_cons, if_pos hd, countRunning_cons, countRunning_cons,
        ← ih hcons.2 h]
      omega

theorem countRunning_pos_of_mem {l : List (String × JobInfo)} {k : String} {v : JobInfo}
    (hm : (k, v) ∈ l) (hv : v.is_active = true) : 0 < countRunning l := by
  unfold countRunning
  have hmem : (k, v) ∈ l.filter (fun e => e.2.is_active) :=
    List.mem_filter.mpr ⟨hm, by simpa using hv⟩
  exact List.length_pos.mpr (List.ne_nil_of_mem hmem)

theorem lookupKey_filter_of_pred {α : Type} (p : String × α → Bool) :
    ∀ {l : List (String × α)} {k : String} {v : α},
      lookupKey k l = some v → p (k, v) = true →
      lookupKey k (l.filter p) = some v := by
  intro l
  induction l with
  | nil => intro k v h _; simp [lookupKey] at h
  | cons e rest ih =>
    obtain ⟨a, b⟩ := e
    intro k v h hp
    by_cases ha : a = k
    · rw [lookupKey, if_pos ha] at h
      injection h with hb
      subst hb
      subst ha
      rw [List.filter_cons, if_pos hp, lookupKey, if_pos rfl]
    · rw [lookupKey, if_neg ha] at h
      rw [List.filter_cons]
      by_cases hpa : p (a, b) = true
      · rw [if_pos hpa, lookupKey, if_neg ha]
        exact ih h hp
      · rw [if_neg hpa]
        exact ih h hp

theorem keysNodup_filter {α : Type} (p : String × α → Bool) {l : List (String × α)}
    (h : keysNodup l) : keysNodup (l.filter p) := by
  unfold keysNodup at *
  exact ((List.filter_sublist l).map Prod.fst).nodup h

theorem update_status_of_lookup {reg : JobRegistry} {jid : String} {j : JobInfo}
    (hl : lookupKey jid reg.jobs = some j) (status : JobStatus) (now : Nat) :
    reg.update_status jid status now
      = { jobs := insertKey jid { j with status := status, updated_at := now } reg.jobs,
          active_count :=
            if j.is_active
                && !({ j with status := status, updated_at := now } : JobInfo).is_active
            then (reg.active_count + (U64 - 1)) % U64
            else reg.active_count } := by
  unfold JobRegistry.update_status
  rw [hl]

theorem update_status_inactive_count {reg : JobRegistry} {jid : String} {j : JobInfo}
    (hl : lookupKey jid reg.jobs = some j) (hj : j.is_active = false)
    (status : JobStatus) (now : Nat) :
    (reg.update_status jid status now).active_count = reg.active_count := by
  rw [update_status_of_lookup hl]
  simp [hj]

theorem cleanup_old_active_count (reg : JobRegistry) (now : Nat) :
    (reg.cleanup_old now).active_count = reg.active_count := rfl

theorem countRunning_cleanup (reg : JobRegistry) (now : Nat) :
    countRunning (reg.cleanup_old now).jobs = countRunning reg.jobs := by
  unfold JobRegistry.cleanup_old countRunning
  dsimp only
  rw [List.filter_filter]
  apply congrArg List.length
  apply List.filter_congr
  intro e _
  by_cases he : e.2.is_active = true <;> simp [he]

theorem cleanup_keeps_active (reg : JobRegistry) (now : Nat) {jid : String} {j : JobInfo}
    (hl : lookupKey jid reg.jobs = some j) (hj : j.is_active = true) :
    lookupKey jid (reg.cleanup_old now).jobs = some j := by
  unfold JobRegistry.cleanup_old
  dsimp only
  exact lookupKey_filter_of_pred _ hl (by simp [hj])

theorem JobCountInv_new : JobCountInv JobRegistry.new := by
  constructor
  · simp [keysNodup, JobRegistry.new]
  · rfl

theorem JobCountInv_register {reg : JobRegistry} (h : JobCountInv reg)
    (wb sid d : String) (now : Nat)
    (hfresh : lookupKey (JobInfo.new wb sid d now).id reg.jobs = none) :
    JobCountInv (reg.register wb sid d now).2 := by
  obtain ⟨hnd, hcnt⟩ := h
  unfold JobRegistry.register
  dsimp only
  constructor
  · exact keysNodup_insertKey _ _ hnd
  · rw [countRunning_insertKey, filter_ne_of_lookupKey_none hfresh]
    simp only [is_active_new, if_true]
    rw [hcnt, mod_succ_eq, Nat.add_comm 1 (countRunning reg.jobs)]

theorem JobCountInv_update {reg : JobRegistry} (h : JobCountInv reg) (jid : String)
    (st : JobStatus) (hst : ¬ st = JobStatus.Running) (now : Nat) :
    JobCountInv (reg.update_status jid st now) := by
  obtain ⟨hnd, hcnt⟩ := h
  cases hl : lookupKey jid reg.jobs with
  | none =>
    unfold JobRegistry.update_status
    rw [hl]
    exact ⟨hnd, hcnt⟩
  | some j =>
    rw [update_status_of_lookup hl]
    have hj' : ({ j with status := st, updated_at := now } : JobInfo).is_active = false :=
      is_active_set_terminal hst now
    constructor
    · exact keysNodup_insertKey _ _ hnd
    · dsimp only
      rw [countRunning_insertKey, hj', if_neg Bool.false_ne_true, Nat.zero_add]
      have hsum := countRunning_filter_ne_some hnd hl
      by_cases hja : j.is_active = true
      · rw [hja] at hsum
        simp only [eq_self_iff_true, if_true] at hsum
        have hpos : 0 < countRunning reg.jobs :=
          countRunning_pos_of_mem (lookupKey_some_mem hl) hja
        rw [hja]
        simp only [Bool.not_false, Bool.and_true, Bool.and_self, eq_self_iff_true, if_true]
        rw [hcnt, mod_pred_eq _ hpos]
        congr 1
        omega
      · have hjaf : j.is_active = false := by
          cases hje : j.is_active
          · rfl
          · exact absurd hje hja
        rw [hjaf, if_neg Bool.false_ne_true, Nat.add_zero] at hsum
        rw [hjaf]
        simp only [Bool.false_and]
        rw [if_neg Bool.false_ne_true, hcnt, hsum]

theorem JobCountInv_cleanup {reg : JobRegistry} (h : JobCountInv reg) (now : Nat) :
    JobCountInv (reg.cleanup_old now) := by
  obtain ⟨hnd, hcnt⟩ := h
  constructor
  · unfold JobRegistry.cleanup_old
    exact keysNodup_filter _ hnd
  · rw [cleanup_old_active_count, countRunning_cleanup]
    exact hcnt

theorem JobCountInv_runJobOps :
    ∀ (ops : List JobOp) (reg : JobRegistry), JobCountInv reg →
      freshRun reg ops = true → JobCountInv (runJobOps reg ops) := by
  intro ops
  induction ops with
  | nil => intro reg h _; exact h
  | cons op rest ih =>
    intro reg h hf
    unfold freshRun at hf
    rw [Bool.and_eq_true] at hf
    obtain ⟨hop, hrest⟩ := hf
    refine ih _ ?_ hrest
    cases op with
    | register wb sid d now =>
      simp only [Option.isNone_iff_eq_none] at hop
      exact JobCountInv_register h wb sid d now hop
    | complete jid now => exact JobCountInv_update h jid _ (by decide) now
    | fail jid now => exact JobCountInv_update h jid _ (by decide) now
    | cancel jid now => exact JobCountInv_update h jid _ (by decide) now
    | cleanup now => exact JobCountInv_cleanup h now

/-- C10 counterexample: two `register` calls for the same session in the same
millisecond build the same job id `job_s1_0`; the second insert overwrites
the first stored job while the counter is incremented twice, so
`active_count` (2) differs from the number of stored Running jobs (1). -/
theorem C10_counterexample :
    (finalReg [JobOp.register "wb" "s1" "d" 0, JobOp.register "wb" "s1" "d" 0]).active_count = 2
    ∧ countRunning (finalReg [JobOp.register "wb" "s1" "d" 0,
        JobOp.register "wb" "s1" "d" 0]).jobs = 1
    ∧ ¬ (2 : Nat) = 1 := by
  decide

/-- C10 amended: for every collision-free operation trace (no two `register`
calls build the same job id, as distinct `(session, millisecond)` pairs
guarantee), `active_count` equals the number of stored `Running` jobs reduced
modulo the counter's `u64` width; `cleanup_old` removes only non-Running jobs
and never changes the counter or the Running count, and transitioning an
already-terminal job leaves the counter unchanged. -/
theorem C10_active_count_invariant (ops : List JobOp)
    (h : freshRun JobRegistry.new ops = true) :
    (finalReg ops).active_count = countRunning (finalReg ops).jobs % U64
    ∧ (∀ now, ((finalReg ops).cleanup_old now).active_count = (finalReg ops).active_count
        ∧ countRunning ((finalReg ops).cleanup_old now).jobs
            = countRunning (finalReg ops).jobs
        ∧ (∀ jid j, lookupKey jid (finalReg ops).jobs = some j → j.is_active = true →
            lookupKey jid ((finalReg ops).cleanup_old now).jobs = some j))
    ∧ (∀ jid j status now, lookupKey jid (finalReg ops).jobs = some j →
        j.is_active = false →
        ((finalReg ops).update_status jid status now).active_count
          = (finalReg ops).active_count) := by
  have hinv := JobCountInv_runJobOps ops JobRegistry.new JobCountInv_new h
  refine ⟨hinv.2, ?_, ?_⟩
  · intro now
    exact ⟨rfl, countRunning_cleanup _ now,
      fun jid j hl hj => cleanup_keeps_active _ now hl hj⟩
  · intro jid j status now hl hj
    exact update_status_inactive_count hl hj status now

/-- Witness for the amended C10 on the register/complete/cleanup trace. -/
theorem C10_active_count_invariant_witness :
    freshRun JobRegistry.new jobTraceExample = true
    ∧ ((finalReg jobTraceExample).active_count
          = countRunning (finalReg jobTraceExample).jobs % U64
      ∧ (∀ now, ((finalReg jobTraceExample).cleanup_old now).active_count
            = (finalReg jobTraceExample).active_count
          ∧ countRunning ((finalReg jobTraceExample).cleanup_old now).jobs
              = countRunning (finalReg jobTraceExample).jobs
          ∧ (∀ jid j, lookupKey jid (finalReg jobTraceExample).jobs = some j →
              j.is_active = true →
              lookupKey jid ((finalReg jobTraceExample).cleanup_old now).jobs = some j))
      ∧ (∀ jid j status now, lookupKey jid (finalReg jobTraceExample).jobs = some j →
          j.is_active = false →
          ((finalReg jobTraceExample).update_status jid status now).active_count
            = (finalReg jobTraceExample).active_count)) :=
  ⟨by decide, C10_active_count_invariant jobTraceExample (by decide)⟩

/-! ## Session-event lemmas and claims C3, C9 -/

theorem handleStatus_runtime_manager (sid status : String) (now : Nat) (st : AppStateModel) :
    (handleStatus sid status now st).runtime_manager = st.runtime_manager := by
  unfold handleStatus
  repeat' split
  all_goals rfl

theorem handle_session_event_runtime_manager (ev : SessionEvent) (now : Nat)
    (st : AppStateModel) :
    (handle_session_event ev now st).runtime_manager = st.runtime_manager := by
  cases ev with
  | SessionStatus sid status => exact handleStatus_runtime_manager sid status now st
  | SessionUpdated sid stOpt =>
    cases stOpt with
    | some status => exact handleStatus_runtime_manager sid status now st
    | none => rfl
  | MessagePartUpdated _ => rfl
  | Unknown => rfl

theorem handle_running_register {st : AppStateModel} {sid : String} {now : Nat}
    (hfa : st.job_registry.find_active_by_session sid = none) :
    handle_session_event (SessionEvent.SessionStatus sid "running") now st
      = { st with job_registry :=
            (st.job_registry.register (st.active_workbook_id.getD "") sid
              "AI processing..." now).2 } := by
  unfold handle_session_event handleStatus
  dsimp only
  rw [if_pos (show SessionEvent.is_running_status "running" = true from rfl), hfa]

theorem handle_running_noop {st : AppStateModel} {sid : String} {now : Nat} {j : JobInfo}
    (hfa : st.job_registry.find_active_by_session sid = some j) :
    handle_session_event (SessionEvent.SessionStatus sid "running") now st = st := by
  unfold handle_session_event handleStatus
  dsimp only
  rw [if_pos (show SessionEvent.is_running_status "running" = true from rfl), hfa]

theorem find_active_after_register (reg : JobRegistry) (wb sid d : String) (now : Nat) :
    (reg.register wb sid d now).2.find_active_by_session sid
      = some (JobInfo.new wb sid d now) := by
  unfold JobRegistry.register JobRegistry.find_active_by_session insertKey
  dsimp only
  rw [List.find?_cons_of_pos]
  · rfl
  · simp [JobInfo.new, JobInfo.is_active]

theorem activeSessionCount_cons_active (s k : String) {v : JobInfo}
    (hs : v.session_id = s) (hv : v.is_active = true) (rest : List (String × JobInfo)) :
    activeSessionCount s ((k, v) :: rest) = activeSessionCount s rest + 1 := by
  unfold activeSessionCount
  rw [List.filter_cons]
  simp [hs, hv]

theorem activeSessionCount_cons_other (s k : String) {v : JobInfo}
    (hs : ¬ v.session_id = s) (rest : List (String × JobInfo)) :
    activeSessionCount s ((k, v) :: rest) = activeSessionCount s rest := by
  unfold activeSessionCount
  rw [List.filter_cons]
  simp [hs]

theorem activeSessionCount_cons_inactive (s k : String) {v : JobInfo}
    (hv : v.is_active = false) (rest : List (String × JobInfo)) :
    activeSessionCount s ((k, v) :: rest) = activeSessionCount s rest := by
  unfold activeSessionCount
  rw [List.filter_cons]
  simp [hv]

theorem find_active_none_count_zero {reg : JobRegistry} {sid : String}
    (h : reg.find_active_by_session sid = none) :
    activeSessionCount sid reg.jobs = 0 := by
  unfold JobRegistry.find_active_by_session at h
  rw [Option.map_eq_none'] at h
  rw [List.find?_eq_none] at h
  unfold activeSessionCount
  rw [List.length_eq_zero, List.filter_eq_nil]
  exact h

theorem activeSessionCount_filter_le (s : String) (p : String × JobInfo → Bool)
    (l : List (String × JobInfo)) :
    activeSessionCount s (l.filter p) ≤ activeSessionCount s l := by
  unfold activeSessionCount
  exact ((List.filter_sublist l).filter _).length_le

theorem handleStatus_active_le (sid' status : String) (now : Nat) (st' : AppStateModel)
    (h : ∀ s, activeSessionCount s st'.job_registry.jobs ≤ 1) :
    ∀ s, activeSessionCount s (handleStatus sid' status now st').job_registry.jobs ≤ 1 := by
  intro s
  unfold handleStatus
  by_cases hrb : SessionEvent.is_running_status status = true
  · rw [if_pos hrb]
    cases hfa : st'.job_registry.find_active_by_session sid' with
    | some j => exact h s
    | none =>
      dsimp only
      unfold JobRegistry.register
      dsimp only
      unfold insertKey
      by_cases hss : s = sid'
      · subst hss
        rw [activeSessionCount_cons_active s _ rfl (is_active_new _ _ _ _)]
        have h0 : activeSessionCount s st'.job_registry.jobs = 0 :=
          find_active_none_count_zero hfa
        have hle := activeSessionCount_filter_le s
          (fun e => e.1 ≠ (JobInfo.new (st'.active_workbook_id.getD "") s
            "AI processing..." now).id) st'.job_registry.jobs
        omega
      · rw [activeSessionCount_cons_other s _
          (by simp only [JobInfo.new]; exact fun heq => hss heq.symm)]
        exact le_trans (activeSessionCount_filter_le s _ _) (h s)
  · rw [if_neg hrb]
    by_cases hcb : SessionEvent.is_completed_status status = true
    · rw [if_pos hcb]
      cases hfb : st'.job_registry.find_by_session sid' with
      | none => exact h s
      | some j =>
        dsimp only
        unfold JobRegistry.complete
        cases hl : lookupKey j.id st'.job_registry.jobs with
        | none =>
          unfold JobRegistry.update_status
          rw [hl]
          exact h s
        | some jj =>
          rw [update_status_of_lookup hl]
          dsimp only
          unfold insertKey
          rw [activeSessionCount_cons_inactive s _
            (is_active_set_terminal (by decide) now)]
          exact le_trans (activeSessionCount_filter_le s _ _) (h s)
    · rw [if_neg hcb]
      by_cases hfbb : SessionEvent.is_failed_status status = true
      · rw [if_pos hfbb]
        cases hfb : st'.job_registry.find_by_session sid' with
        | none => exact h s
        | some j =>
          dsimp only
          unfold JobRegistry.fail
          cases hl : lookupKey j.id st'.job_registry.jobs with
          | none =>
            unfold JobRegistry.update_status
            rw [hl]
            exact h s
          | some jj =>
            rw [update_status_of_lookup hl]
            dsimp only
            unfold insertKey
            rw [activeSessionCount_cons_inactive s _
              (is_active_set_terminal (by decide) now)]
            exact le_trans (activeSessionCount_filter_le s _ _) (h s)
      · rw [if_neg hfbb]
        exact h s

theorem handle_session_event_active_le (ev : SessionEvent) (now : Nat)
    (st' : AppStateModel) (h : ∀ s, activeSessionCount s st'.job_registry.jobs ≤ 1) :
    ∀ s, activeSessionCount s (handle_session_event ev now st').job_registry.jobs ≤ 1 := by
  cases ev with
  | SessionStatus sid status => exact handleStatus_active_le sid status now st' h
  | SessionUpdated sid stOpt =>
    cases stOpt with
    | some status => exact handleStatus_active_le sid status now st' h
    | none => exact h
  | MessagePartUpdated _ => exact h
  | Unknown => exact h

/-- C9: a `session.status` event classified Running creates a job only when
no active job exists for that session: two consecutive `"running"` events for
the same session leave the state of the first event unchanged (exactly one
job was created, and exactly one active job for the session exists), and the
event path preserves the at-most-one-active-job-per-session invariant. -/
theorem C9_running_idempotent (st : AppStateModel) (sid : String) (n₁ n₂ : Nat)
    (hfa : st.job_registry.find_active_by_session sid = none) :
    handle_session_event (SessionEvent.SessionStatus sid "running") n₂
        (handle_session_event (SessionEvent.SessionStatus sid "running") n₁ st)
      = handle_session_event (SessionEvent.SessionStatus sid "running") n₁ st
    ∧ activeSessionCount sid
        (handle_session_event (SessionEvent.SessionStatus sid "running") n₁
          st).job_registry.jobs = 1
    ∧ (∀ ev now stAny, (∀ s, activeSessionCount s stAny.job_registry.jobs ≤ 1) →
        ∀ s, activeSessionCount s
          (handle_session_event ev now stAny).job_registry.jobs ≤ 1) := by
  have h1 := @handle_running_register st sid n₁ hfa
  refine ⟨?_, ?_, ?_⟩
  · rw [h1]
    exact handle_running_noop
      (find_active_after_register st.job_registry (st.active_workbook_id.getD "") sid
        "AI processing..." n₁)
  · rw [h1]
    dsimp only
    unfold JobRegistry.register
    dsimp only
    unfold insertKey
    rw [activeSessionCount_cons_active sid _ rfl (is_active_new _ _ _ _)]
    have h0 : activeSessionCount sid st.job_registry.jobs = 0 :=
      find_active_none_count_zero hfa
    have hle := activeSessionCount_filter_le sid
      (fun e => e.1 ≠ (JobInfo.new (st.active_workbook_id.getD "") sid
        "AI processing..." n₁).id) st.job_registry.jobs
    omega
  · intro ev now stAny hAll s
    exact handle_session_event_active_le ev now stAny hAll s

/-- Witness for C9 from an empty job registry. -/
theorem C9_running_idempotent_witness :
    handle_session_event (SessionEvent.SessionStatus "s1" "running") 2
        (handle_session_event (SessionEvent.SessionStatus "s1" "running") 1 idleState)
      = handle_session_event (SessionEvent.SessionStatus "s1" "running") 1 idleState
    ∧ activeSessionCount "s1"
        (handle_session_event (SessionEvent.SessionStatus "s1" "running") 1
          idleState).job_registry.jobs = 1
    ∧ (∀ ev now stAny, (∀ s, activeSessionCount s stAny.job_registry.jobs ≤ 1) →
        ∀ s, activeSessionCount s
          (handle_session_event ev now stAny).job_registry.jobs ≤ 1) :=
  C9_running_idempotent idleState "s1" 1 2 rfl

/-- C3 counterexample: a `completed` event for session `s1` (whose running
job is owned by tenant `wb`, the active workbook) leaves the owning
`RuntimeInfo.active_jobs` untouched at 1 — it is not decremented to 0 as the
claim requires, because `handle_session_event` never calls
`increment_jobs`/`decrement_jobs` on the runtime entry. -/
theorem C3_counterexample :
    ((handle_session_event (SessionEvent.SessionStatus "s1" "completed") 200
        eventScenarioState).runtime_manager.get "wb").map RuntimeInfo.active_jobs = some 1
    ∧ ¬ ((handle_session_event (SessionEvent.SessionStatus "s1" "completed") 200
        eventScenarioState).runtime_manager.get "wb").map RuntimeInfo.active_jobs
        = some 0 := by
  decide

/-- C3 amended: the session-event path never touches the per-tenant
`RuntimeInfo.active_jobs` (no event changes the runtime manager at all); the
counter that moves is the `JobRegistry`'s global `active_count`, incremented
exactly once when a Running-classified event creates a job and decremented
exactly once when a `completed` event transitions the session's (unique,
active) job out of Running. -/
theorem C3_job_counter (st : AppStateModel) (sid : String) (now : Nat) :
    (∀ ev, (handle_session_event ev now st).runtime_manager = st.runtime_manager)
    ∧ (st.job_registry.find_active_by_session sid = none →
        st.job_registry.active_count + 1 < U64 →
        (handle_session_event (SessionEvent.SessionStatus sid "running") now
          st).job_registry.active_count = st.job_registry.active_count + 1)
    ∧ (∀ j, st.job_registry.find_by_session sid = some j → j.is_active = true →
        lookupKey j.id st.job_registry.jobs = some j →
        0 < st.job_registry.active_count → st.job_registry.active_count < U64 →
        (handle_session_event (SessionEvent.SessionStatus sid "completed") now
          st).job_registry.active_count = st.job_registry.active_count - 1) := by
  refine ⟨?_, ?_, ?_⟩
  · intro ev
    exact handle_session_event_runtime_manager ev now st
  · intro hfa hbound
    rw [handle_running_register hfa]
    dsimp only
    unfold JobRegistry.register
    dsimp only
    exact Nat.mod_eq_of_lt hbound
  · intro j hfb hja hlj hpos hlt
    have hstep : handle_session_event (SessionEvent.SessionStatus sid "completed") now st
        = { st with job_registry := st.job_registry.complete j.id now } := by
      unfold handle_session_event handleStatus
      dsimp only
      rw [if_neg (show ¬ SessionEvent.is_running_status "completed" = true by decide),
        if_pos (show SessionEvent.is_completed_status "completed" = true from rfl), hfb]
    rw [hstep]
    dsimp only
    unfold JobRegistry.complete
    rw [update_status_of_lookup hlj]
    dsimp only
    rw [hja]
    simp only [is_active_set_terminal
        (show ¬ JobStatus.Completed = JobStatus.Running by decide) now,
      Bool.not_false, Bool.and_true, Bool.and_self, eq_self_iff_true, if_true]
    have h2 : st.job_registry.active_count + (U64 - 1)
        = (st.job_registry.active_count - 1) + U64 := by
      rw [U64_val]
      rw [U64_val] at hlt
      omega
    rw [h2, Nat.add_mod_right]
    exact Nat.mod_eq_of_lt (by omega)

/-- Witness for the amended C3: the running-event increment on an empty
registry and the completed-event decrement on the scenario state. -/
theorem C3_job_counter_witness :
    (handle_session_event SessionEvent.Unknown 5 idleState).runtime_manager
        = idleState.runtime_manager
    ∧ (handle_session_event (SessionEvent.SessionStatus "s1" "running") 5
        idleState).job_registry.active_count = idleState.job_registry.active_count + 1
    ∧ (handle_session_event (SessionEvent.SessionStatus "s1" "completed") 200
        eventScenarioState).job_registry.active_count
        = eventScenarioState.job_registry.active_count - 1 :=
  ⟨(C3_job_counter idleState "s1" 5).1 SessionEvent.Unknown,
   (C3_job_counter idleState "s1" 5).2.1 rfl (by decide),
   (C3_job_counter eventScenarioState "s1" 200).2.2 eventScenarioJob (by decide) rfl
     (by decide) (by decide) (by decide)⟩

end Hands
